import Mathlib

/-!
Verification of the partition-compile-splice pipeline and of device
resolution for a Torch-TensorRT style compiler front end.

The `Device` definitions embed `py/torch_tensorrt/_Device.py`; the
`compile`, `_compile_graph` and `lower_model_using_trt_splitter`
definitions embed `py/torch_tensorrt/dynamo/compile.py`.  Python strings
are embedded as lists of characters and Python `int(...)` parsing as
`pyInt?`, so that every definition is executable.
-/

/-! ### Python string primitives -/

/-- Python `s.split(sep)` for a one-character separator, over the character
list of the string.  `splitOnChar c [] = [[]]`, matching Python where
`"".split(sep) == [""]`. -/
def splitOnChar (c : Char) : List Char → List (List Char)
  | [] => [[]]
  | x :: xs =>
    let r := splitOnChar c xs
    if x = c then [] :: r
    else
      match r with
      | [] => [[x]]
      | g :: gs => (x :: g) :: gs

/-- Python `s.strip()` on a character list (whitespace removal on both
ends). -/
def pyStrip (l : List Char) : List Char :=
  ((l.dropWhile Char.isWhitespace).reverse.dropWhile Char.isWhitespace).reverse

/-- Decimal value of a run of ASCII digits. -/
def digitsVal (l : List Char) : Nat :=
  l.foldl (fun a c => a * 10 + (c.toNat - 48)) 0

/-- The digit part of a Python integer literal: nonempty groups of ASCII
decimal digits separated by single underscores (underscores may only stand
between digits). -/
def pyIntDigits? (l : List Char) : Option Nat :=
  let parts := splitOnChar '_' l
  if parts.all (fun p => !p.isEmpty && p.all Char.isDigit) then
    some (digitsVal parts.flatten)
  else none

/-- Python `int(s)` on a decimal string: optional surrounding whitespace,
an optional sign, then underscore-grouped decimal digits. -/
def pyInt? (l : List Char) : Option Int :=
  match pyStrip l with
  | [] => none
  | c :: rest =>
    if c = '+' then (pyIntDigits? rest).map (fun n => (n : Int))
    else if c = '-' then (pyIntDigits? rest).map (fun n => -(n : Int))
    else (pyIntDigits? (c :: rest)).map (fun n => (n : Int))

/-- `a.startswith(b)` on character lists. -/
def charsStartWith : List Char → List Char → Bool
  | _, [] => true
  | [], _ :: _ => false
  | a :: as, b :: bs => (a == b) && charsStartWith as bs

/-- Python `s.startswith(pre)` on strings. -/
def strStartsWith (s pre : String) : Bool :=
  charsStartWith s.toList pre.toList

/-! ### Device model (`py/torch_tensorrt/_Device.py`) -/

/-- `tensorrt.DeviceType`. -/
inductive DeviceType
  | GPU
  | DLA
deriving DecidableEq

/-- A Python runtime value, as far as `Device.__init__` inspects values:
a string, an integer, a boolean, or anything else. -/
inductive PyVal
  | str (s : String)
  | int (n : Int)
  | bool (b : Bool)
  | other
deriving DecidableEq

/-- Whether a Python value is a string (`isinstance(v, str)`). -/
def PyVal.isStr : PyVal → Bool
  | .str _ => true
  | _ => false

/-- Whether a Python value is a boolean (`isinstance(v, bool)`). -/
def PyVal.isBool : PyVal → Bool
  | .bool _ => true
  | _ => false

/-- The Python exceptions `Device.__init__` and `_parse_device_str` can
raise. -/
inductive DevErr
  | typeErr (msg : String)
  | valueErr (msg : String)
  | indexErr (msg : String)
deriving DecidableEq

/-- Levels of the non-fatal signals the code emits. -/
inductive LogLevel
  | Warning
  | Info
deriving DecidableEq

/-- An emitted non-fatal signal: a level and a message. -/
abbrev LogEntry := LogLevel × String

/-- The `Device` object: its four attributes with the class-level
defaults from the source. -/
structure Device where
  device_type : Option DeviceType := none
  gpu_id : Int := -1
  dla_core : Int := -1
  allow_gpu_fallback : Bool := false
deriving DecidableEq

/-- The keyword arguments `Device.__init__` inspects.  `gpu_id` and
`dla_core` are documented as integer ids; `allow_gpu_fallback` may be
given any Python value (the code type-checks it itself). -/
structure DeviceKwargs where
  gpu_id : Option Int := none
  dla_core : Option Int := none
  allow_gpu_fallback : Option PyVal := none
deriving DecidableEq

/-- The dispatch of `Device._parse_device_str` on the colon-separated
fields of the lowercased device string. -/
def _parse_device_fields (spec : List (List Char)) : Except DevErr (DeviceType × Int) :=
  let head := spec.headD []
  if head = "gpu".toList ∨ head = "cuda".toList then
    match spec[1]? with
    | none => .error (DevErr.indexErr "list index out of range")
    | some t =>
      match pyInt? t with
      | none => .error (DevErr.valueErr "invalid literal for int with base 10")
      | some id => .ok (DeviceType.GPU, id)
  else if head = "dla".toList then
    match spec[1]? with
    | none => .error (DevErr.indexErr "list index out of range")
    | some t =>
      match pyInt? t with
      | none => .error (DevErr.valueErr "invalid literal for int with base 10")
      | some id => .ok (DeviceType.DLA, id)
  else .error (DevErr.valueErr "Unknown device type")

/-- `Device._parse_device_str`: lowercase the string, split on colons,
dispatch on the first field and apply Python `int` to the second. -/
def _parse_device_str (s : String) : Except DevErr (DeviceType × Int) :=
  _parse_device_fields (splitOnChar ':' (s.toList.map Char.toLower))

/-- The message logged when the GPU id of a DLA device is defaulted. -/
def dlaManagedMsg : String :=
  "Setting GPU id to 0 for device because device 0 manages DLA on Xavier"

/-- The positional/keyword dispatch of `Device.__init__` (everything
before the final `allow_gpu_fallback` check). -/
def deviceInitStep1 (args : List PyVal) (k : DeviceKwargs) :
    Except DevErr (Device × List LogEntry) :=
  match args with
  | [a] =>
    match a with
    | PyVal.str s =>
      match _parse_device_str s with
      | .error e => .error e
      | .ok (dt, id) =>
        match dt with
        | DeviceType.GPU =>
          .ok ({ device_type := some DeviceType.GPU, gpu_id := id }, [])
        | DeviceType.DLA =>
          .ok ({ device_type := some DeviceType.DLA, dla_core := id, gpu_id := 0 },
               [(LogLevel.Warning, dlaManagedMsg)])
    | _ =>
      .error (DevErr.typeErr
        "When specifying Device through positional argument, argument must be str")
  | [] =>
    match k.dla_core, k.gpu_id with
    | some dc, some g =>
      .ok ({ device_type := some DeviceType.DLA, dla_core := dc, gpu_id := g }, [])
    | some dc, none =>
      .ok ({ device_type := some DeviceType.DLA, dla_core := dc, gpu_id := 0 },
           [(LogLevel.Warning, dlaManagedMsg)])
    | none, some g =>
      .ok ({ device_type := some DeviceType.GPU, gpu_id := g }, [])
    | none, none =>
      .error (DevErr.valueErr
        "Either gpu_id or dla_core or both must be defined if no string with device specs is provided as an arg")
  | _ =>
    .error (DevErr.valueErr
      "Unexpected number of positional arguments for class Device")

/-- `Device.__init__`: the positional/keyword dispatch followed by the
`allow_gpu_fallback` type check and assignment.  The result is the
constructed device together with the non-fatal signals emitted. -/
def Device.init (args : List PyVal) (k : DeviceKwargs) :
    Except DevErr (Device × List LogEntry) :=
  match deviceInitStep1 args k with
  | .error e => .error e
  | .ok (d, logs) =>
    match k.allow_gpu_fallback with
    | none => .ok (d, logs)
    | some (PyVal.bool b) => .ok ({ d with allow_gpu_fallback := b }, logs)
    | some _ => .error (DevErr.typeErr "allow_gpu_fallback must be a bool")

/-- Whether `Device.__init__` raises on the given arguments. -/
def deviceInitFails (args : List PyVal) (k : DeviceKwargs) : Bool :=
  match Device.init args k with
  | .error _ => true
  | .ok _ => false

/-- Follows the spec's words: the device-spec textual grammar
`(gpu|cuda|dla):<nonneg int>` with a case-insensitive prefix, one colon
and a nonempty run of decimal digits. -/
def matchesDeviceGrammar (s : String) : Bool :=
  match splitOnChar ':' s.toList with
  | [p, ds] =>
    let pl := p.map Char.toLower
    (pl == "gpu".toList || pl == "cuda".toList || pl == "dla".toList) &&
      (!ds.isEmpty && ds.all Char.isDigit)
  | _ => false

/-- Acceptance condition on the colon-separated fields of a lowercased
device string: the first field is `gpu`, `cuda` or `dla`, and a second
field exists and is a valid Python integer literal (fields beyond the
second are ignored). -/
def acceptedFields (spec : List (List Char)) : Bool :=
  let head := spec.headD []
  (head == "gpu".toList || head == "cuda".toList || head == "dla".toList) &&
    (match spec[1]? with
     | some t => (pyInt? t).isSome
     | none => false)

/-- Whether the source's parser accepts a positional device string. -/
def posStrAccepted (s : String) : Bool :=
  acceptedFields (splitOnChar ':' (s.toList.map Char.toLower))

/-- Whether more than one positional argument was given. -/
def moreThanOnePos (args : List PyVal) : Bool :=
  match args with
  | _ :: _ :: _ => true
  | _ => false

/-- The amended failure condition for `Device.__init__`: more than one
positional argument, a non-string positional argument, no positional
argument and neither id keyword, a rejected positional string, or a
non-boolean `allow_gpu_fallback`. -/
def deviceFailCond (args : List PyVal) (k : DeviceKwargs) : Bool :=
  moreThanOnePos args ||
  (match args with
   | [a] => !a.isStr
   | _ => false) ||
  (args.isEmpty && k.gpu_id.isNone && k.dla_core.isNone) ||
  (match args with
   | [PyVal.str s] => !posStrAccepted s
   | _ => false) ||
  (match k.allow_gpu_fallback with
   | some v => !v.isBool
   | none => false)

/-! ### Compile pipeline model (`py/torch_tensorrt/dynamo/compile.py`) -/

/-- The dtype values the precision resolution in `compile` distinguishes:
`torch.float16`, `torch.float32`, `torch.int8`, `torch_tensorrt.dtype.half`,
`torch_tensorrt.dtype.float` and `torch_tensorrt.dtype.int8`. -/
inductive Dtype
  | torch_float16
  | torch_float32
  | torch_int8
  | trt_half
  | trt_float
  | trt_int8
deriving DecidableEq

/-- Modelled from the spec: the documented default precision is the
full-width float type (`torch_tensorrt.dynamo._defaults.PRECISION` is not
part of the analysed sources). -/
def PRECISION : Dtype := Dtype.torch_float32

/-- The precision resolution performed by `compile` (lines 86-102).  The
source first normalizes the argument with `set(...)`; membership in and
emptiness of that set agree with membership in and emptiness of the
argument list, so the resolution is stated on the list.  The boolean
records whether the informational default-precision signal was logged. -/
def resolve_precision (eps : List Dtype) : Except String (Dtype × Bool) :=
  if Dtype.torch_float16 ∈ eps ∨ Dtype.trt_half ∈ eps then
    .ok (Dtype.torch_float16, false)
  else if Dtype.torch_float32 ∈ eps ∨ Dtype.trt_float ∈ eps then
    .ok (Dtype.torch_float32, false)
  else if eps = [] then
    .ok (PRECISION, true)
  else
    .error "Precision not supported in the Dynamo Path"

/-- The support verdict the splitter's oracle assigns to one graph node. -/
inductive Verdict
  | Supported
  | Unsupported
deriving DecidableEq

/-- A partition produced by the splitter: a run of consecutive nodes with
its size and whether it is routed to the accelerator. -/
structure PartitionSeg where
  size : Nat
  eligible : Bool
deriving DecidableEq

/-- Modelled from the spec: the GraphPartitioner's first pass groups
consecutive nodes sharing the same verdict into maximal runs. -/
def groupVerdicts : List Verdict → List PartitionSeg
  | [] => []
  | v :: vs =>
    let e := match v with
      | Verdict.Supported => true
      | Verdict.Unsupported => false
    match groupVerdicts vs with
    | [] => [{ size := 1, eligible := e }]
    | p :: ps =>
      if p.eligible = e then { size := p.size + 1, eligible := e } :: ps
      else { size := 1, eligible := e } :: p :: ps

/-- Modelled from the spec: adjacent partitions with the same routing are
folded together after size coercion. -/
def mergeAdjacent : List PartitionSeg → List PartitionSeg
  | [] => []
  | p :: ps =>
    match mergeAdjacent ps with
    | [] => [p]
    | q :: qs =>
      if p.eligible = q.eligible then { size := p.size + q.size, eligible := p.eligible } :: qs
      else p :: q :: qs

/-- Modelled from the spec: the external `TRTSplitter` partitions the graph
by verdict runs and relabels any supported run whose node count is below
its `min_acc_module_size` setting as fallback, folding it into the
adjacent fallback regions. -/
def splitterPartition (g : List Verdict) (min_acc_module_size : Nat) : List PartitionSeg :=
  mergeAdjacent
    ((groupVerdicts g).map fun p =>
      if p.eligible && decide (p.size < min_acc_module_size) then
        { size := p.size, eligible := false }
      else p)

/-- Modelled from the spec: the pre-partition graph rewrite passes
(`fuse_permute_matmul`, `fuse_permute_linear`) are external collaborators
excluded from the core; on the verdict abstraction of the graph,
`lower_model` leaves the node sequence unchanged. -/
def lower_model (model : List Verdict) : List Verdict := model

/-- `lower_model_using_trt_splitter` (lines 153-166): lower the model and
run the splitter with `min_acc_module_size` hardcoded to `1`. -/
def lower_model_using_trt_splitter (model : List Verdict) : List PartitionSeg :=
  splitterPartition (lower_model model) 1

/-- The `inputs` argument of `compile`: either a Python sequence of input
tensors (tensors abstracted as identifiers) or a single non-sequence
input value. -/
inductive PyInput
  | seq (xs : List Nat)
  | single (x : Nat)
deriving DecidableEq

/-- Lines 81-82 of `compile`: a non-sequence input is wrapped into a
one-element list. -/
def normalize_inputs : PyInput → PyInput
  | PyInput.single x => PyInput.seq [x]
  | i => i

/-- The fields of `CompilationSettings` that the analysed claims exercise
(the record is built once per `compile` call). -/
structure CompilationSettings where
  precision : Dtype
  debug : Bool
  workspace_size : Nat
  min_block_size : Nat
deriving DecidableEq

/-- The arguments of `compile` the analysed claims exercise.  The graph
module is abstracted to the verdict sequence of its nodes. -/
structure CompileArgs where
  gm : List Verdict
  inputs : PyInput
  enabled_precisions : List Dtype
  debug : Bool
  workspace_size : Nat
  min_block_size : Nat
deriving DecidableEq

/-- The value a successful `compile` call produces in this model: the
settings it built, whether the default-precision informational signal was
emitted, the normalized inputs, and the partitions of the split it
performed. -/
structure CompiledResult where
  settings : CompilationSettings
  info_signal : Bool
  torch_inputs : PyInput
  partitions : List PartitionSeg
deriving DecidableEq

/-- `compile` (default path): normalize the inputs, resolve the precision
(raising on an unsupported set), build the settings record, and split the
model with the TRT splitter.  The `use_capability_partitioner` escape
hatch dispatches to the external `_compile_module` collaborator and is
outside this model. -/
def compile (a : CompileArgs) : Except String CompiledResult :=
  let inputs := normalize_inputs a.inputs
  match resolve_precision a.enabled_precisions with
  | .error e => .error e
  | .ok (precision, info_signal) =>
    let settings : CompilationSettings :=
      { precision := precision, debug := a.debug,
        workspace_size := a.workspace_size, min_block_size := a.min_block_size }
    let split_result := lower_model_using_trt_splitter a.gm
    .ok { settings := settings, info_signal := info_signal,
          torch_inputs := inputs, partitions := split_result }

/-- The precision a `compile` call resolves, when it does not raise. -/
def resolvedPrecision (a : CompileArgs) : Option Dtype :=
  match compile a with
  | .ok r => some r.settings.precision
  | .error _ => none

/-- Whether a `compile` call emits the default-precision informational
signal, when it does not raise. -/
def precisionInfoSignal (a : CompileArgs) : Option Bool :=
  match compile a with
  | .ok r => some r.info_signal
  | .error _ => none

/-- The indices of the partitions routed to the accelerator in a list of
partitions: these are the submodules the pipeline compiles. -/
def eligibleIdx (ps : List PartitionSeg) : List Nat :=
  ((List.range ps.length).zip ps).filterMap fun p =>
    if p.2.eligible then some p.1 else none

/-- The subgraph compilations a `compile` call performs: none when the
call raises during precision resolution (the exception propagates before
the splitter or any conversion runs), otherwise one conversion per
accelerator-eligible partition of the split. -/
def compile_convert_calls (a : CompileArgs) : List Nat :=
  match resolve_precision a.enabled_precisions with
  | .error _ => []
  | .ok _ => eligibleIdx (lower_model_using_trt_splitter a.gm)

/-! ### Graph splicing model (`_compile_graph`, lines 131-150) -/

/-- A submodule of the split module: either an uncompiled fx submodule or
a compiled TRT engine wrapping one. -/
inductive FxModule
  | sub (id : Nat)
  | trt (orig : FxModule) (ins : List Nat) (name : String)
deriving DecidableEq

/-- Modelled from the spec: the external SubgraphCompiler
(`convert_module`) turns an eligible submodule with its sample inputs and
name into an opaque compiled drop-in unit. -/
def convert_module (m : FxModule) (ins : List Nat) (name : String) : FxModule :=
  FxModule.trt m ins name

/-- The split result `_compile_graph` consumes: the split module as an
attribute map from submodule names to submodules, the per-submodule
sample inputs (a dict, embedded as its item list), and the prefix naming
the non-accelerated submodules. -/
structure SplitResult where
  split_module : String → Option FxModule
  submodule_inputs : List (String × List Nat)
  non_acc_submodule_pfx : String

/-- `setattr` on the split module. -/
def setModuleAttr (f : String → Option FxModule) (name : String) (v : FxModule) :
    String → Option FxModule :=
  fun n => if n = name then some v else f n

/-- One iteration of the loop in `_compile_graph`: fetch the submodule
(an absent attribute raises), and when its name does not carry the
non-accelerated prefix, convert it and store the compiled unit back.  The
second component records the conversions performed. -/
def _compile_graph_step (pfx : String)
    (acc : (String → Option FxModule) × List String) (p : String × List Nat) :
    Except String ((String → Option FxModule) × List String) :=
  match acc.1 p.1 with
  | none => .error "AttributeError"
  | some submod =>
    if strStartsWith p.1 pfx then .ok acc
    else
      .ok (setModuleAttr acc.1 p.1 (convert_module submod p.2 p.1),
           acc.2 ++ [p.1])

/-- The loop of `_compile_graph` over the items of `submodule_inputs`,
started on the split module with no conversions performed yet. -/
def _compile_graph_run (sr : SplitResult) :
    Except String ((String → Option FxModule) × List String) :=
  sr.submodule_inputs.foldlM (_compile_graph_step sr.non_acc_submodule_pfx)
    (sr.split_module, [])

/-- `_compile_graph`: the split module after the conversion loop. -/
def _compile_graph (sr : SplitResult) : Except String (String → Option FxModule) :=
  (_compile_graph_run sr).map Prod.fst

/-- The attribute map of the spliced module, when the loop succeeds. -/
def splicedModules (sr : SplitResult) (n : String) : Option FxModule :=
  match _compile_graph_run sr with
  | .ok (f, _) => f n
  | .error _ => none

/-- The names `_compile_graph` invoked `convert_module` on, in loop
order. -/
def spliceConvertCalls (sr : SplitResult) : List String :=
  match _compile_graph_run sr with
  | .ok (_, c) => c
  | .error _ => []

/-- Whether the conversion loop of `_compile_graph` completed. -/
def spliceSucceeded (sr : SplitResult) : Bool :=
  match _compile_graph_run sr with
  | .ok _ => true
  | .error _ => false

/-- Lookup in an association list of submodule inputs (Python dict
access). -/
def assocLookup (n : String) : List (String × List Nat) → Option (List Nat)
  | [] => none
  | p :: ps => if n = p.1 then some p.2 else assocLookup n ps

/-- The functional description of the splice: a submodule keeps its value
unless it is listed in `submodule_inputs` and its name lacks the
non-accelerated prefix, in which case it is replaced by its compiled
unit. -/
def spliceExpect (pfx : String) (l : List (String × List Nat))
    (f : String → Option FxModule) : String → Option FxModule :=
  fun n =>
    match assocLookup n l with
    | some ins =>
      if strStartsWith n pfx then f n
      else (f n).map (fun m => convert_module m ins n)
    | none => f n

/-! ### Concrete instances used by witnesses and counterexamples -/

/-- A `compile` call requesting exactly the half-width float precision. -/
def cfgHalf : CompileArgs :=
  { gm := [], inputs := PyInput.seq [], enabled_precisions := [Dtype.torch_float16],
    debug := false, workspace_size := 0, min_block_size := 3 }

/-- A `compile` call requesting only the int8 precision. -/
def cfgInt8 : CompileArgs :=
  { gm := [Verdict.Supported], inputs := PyInput.seq [0],
    enabled_precisions := [Dtype.torch_int8],
    debug := false, workspace_size := 0, min_block_size := 3 }

/-- A `compile` call on a single supported node with `min_block_size` 2. -/
def cfgSmallBlock : CompileArgs :=
  { gm := [Verdict.Supported], inputs := PyInput.seq [],
    enabled_precisions := [Dtype.torch_float32],
    debug := false, workspace_size := 0, min_block_size := 2 }

/-- Two `compile` calls whose enabled-precision arguments are different
lists with the same element set. -/
def cfgSetA : CompileArgs :=
  { gm := [Verdict.Supported], inputs := PyInput.seq [],
    enabled_precisions := [Dtype.torch_float32, Dtype.torch_float16],
    debug := false, workspace_size := 0, min_block_size := 1 }

/-- The companion of `cfgSetA`: duplicated elements in another order and
a different graph. -/
def cfgSetB : CompileArgs :=
  { gm := [], inputs := PyInput.seq [],
    enabled_precisions := [Dtype.torch_float16, Dtype.torch_float32, Dtype.torch_float16],
    debug := false, workspace_size := 0, min_block_size := 1 }

/-- A split result with one accelerator submodule and one fallback
submodule. -/
def srEx : SplitResult :=
  { split_module := fun n =>
      if n = "_run_on_acc_0" then some (FxModule.sub 0)
      else if n = "_run_on_gpu_1" then some (FxModule.sub 1)
      else none,
    submodule_inputs := [("_run_on_acc_0", [5]), ("_run_on_gpu_1", [7])],
    non_acc_submodule_pfx := "_run_on_gpu" }

/-! ### Helper lemmas -/

theorem parse_fields_isOk (spec : List (List Char)) :
    (_parse_device_fields spec).isOk = acceptedFields spec := by
  simp only [_parse_device_fields, acceptedFields]
  by_cases h1 : spec.headD [] = "gpu".toList ∨ spec.headD [] = "cuda".toList
  · rw [if_pos h1]
    have hb : (spec.headD [] == "gpu".toList || spec.headD [] == "cuda".toList ||
        spec.headD [] == "dla".toList) = true := by
      rcases h1 with h | h <;> rw [h] <;> rfl
    rw [hb, Bool.true_and]
    cases h2 : spec[1]? with
    | none => rfl
    | some t =>
      show (match pyInt? t with
        | none => Except.error (DevErr.valueErr "invalid literal for int with base 10")
        | some id => Except.ok (DeviceType.GPU, id)).isOk = (pyInt? t).isSome
      cases h3 : pyInt? t <;> rfl
  · rw [if_neg h1]
    rcases not_or.mp h1 with ⟨hg, hc⟩
    have hA : (spec.headD [] == "gpu".toList) = false := beq_eq_false_iff_ne.mpr hg
    have hB : (spec.headD [] == "cuda".toList) = false := beq_eq_false_iff_ne.mpr hc
    by_cases h2 : spec.headD [] = "dla".toList
    · rw [if_pos h2]
      have hb : (spec.headD [] == "gpu".toList || spec.headD [] == "cuda".toList ||
          spec.headD [] == "dla".toList) = true := by
        rw [hA, hB, h2]; rfl
      rw [hb, Bool.true_and]
      cases h3 : spec[1]? with
      | none => rfl
      | some t =>
        show (match pyInt? t with
          | none => Except.error (DevErr.valueErr "invalid literal for int with base 10")
          | some id => Except.ok (DeviceType.DLA, id)).isOk = (pyInt? t).isSome
        cases h4 : pyInt? t <;> rfl
    · rw [if_neg h2]
      have hC : (spec.headD [] == "dla".toList) = false := beq_eq_false_iff_ne.mpr h2
      rw [hA, hB, hC, Bool.false_or, Bool.false_or, Bool.false_and]
      rfl

theorem parse_isOk (s : String) : (_parse_device_str s).isOk = posStrAccepted s :=
  parse_fields_isOk _

/-- C3 (amended): `Device` construction fails exactly when more than one
positional argument is given, or the single positional argument is not a
string, or there are no positional arguments and neither `gpu_id` nor
`dla_core` keyword, or the positional string is rejected by the parser
(first colon-field, lowercased, not `gpu`/`cuda`/`dla`, or second
colon-field missing or not a Python integer literal), or
`allow_gpu_fallback` is given a non-boolean value. -/
theorem device_init_fails_iff_amended (args : List PyVal) (k : DeviceKwargs) :
    deviceInitFails args k = deviceFailCond args k := by
  obtain ⟨g, d, f⟩ := k
  rcases args with _ | ⟨a, _ | ⟨b2, rest⟩⟩
  · cases g <;> cases d <;> rcases f with _ | v <;>
      first
        | rfl
        | (cases v <;> rfl)
  · rcases a with s | n | b3 | _
    · cases hpar : _parse_device_str s with
      | error e =>
        have hacc : posStrAccepted s = false := by rw [← parse_isOk s, hpar]; rfl
        simp [deviceInitFails, Device.init, deviceInitStep1, deviceFailCond,
          moreThanOnePos, hpar, hacc]
      | ok p =>
        obtain ⟨dt, id⟩ := p
        have hacc : posStrAccepted s = true := by rw [← parse_isOk s, hpar]; rfl
        cases dt <;> rcases f with _ | v <;>
          first
            | (simp [deviceInitFails, Device.init, deviceInitStep1, deviceFailCond,
                moreThanOnePos, PyVal.isStr, PyVal.isBool, hpar, hacc]
               done)
            | (cases v <;>
                simp [deviceInitFails, Device.init, deviceInitStep1, deviceFailCond,
                  moreThanOnePos, PyVal.isStr, PyVal.isBool, hpar, hacc])
    · rfl
    · rfl
    · rfl
  · rfl

/-- C3 (counterexample): the positional string "gpu: -1_0:9" does not
match the documented grammar, yet `Device.__init__` accepts it (Python
`int` tolerates whitespace, a sign and underscores, and fields beyond the
second colon are ignored), so construction does not fail exactly on the
grammar complement. -/
theorem device_grammar_counterexample :
    Device.init [PyVal.str "gpu: -1_0:9"] {} =
      Except.ok ({ device_type := some DeviceType.GPU, gpu_id := -10, dla_core := -1,
                   allow_gpu_fallback := false }, []) ∧
    matchesDeviceGrammar "gpu: -1_0:9" = false :=
  ⟨rfl, rfl⟩

/-- C3 (witness): the amended failure characterization evaluated at an
empty argument list with no keywords. -/
theorem device_init_fails_iff_amended_witness :
    deviceInitFails [] {} = deviceFailCond [] {} ∧ deviceFailCond [] {} = true :=
  ⟨device_init_fails_iff_amended [] {}, rfl⟩

/-- C4: the positional string "dla:0" with no `allow_gpu_fallback`
keyword resolves to a DLA device with primary gpu id defaulted to 0,
secondary dla core 0 and fallback disallowed, emitting the non-fatal
primary-id-defaulting signal; "gpu:2" resolves to a GPU device with
gpu id 2, dla core -1 and fallback disallowed, with no signal. -/
theorem device_scenarios_dla0_gpu2 :
    Device.init [PyVal.str "dla:0"] {} =
      Except.ok ({ device_type := some DeviceType.DLA, gpu_id := 0, dla_core := 0,
                   allow_gpu_fallback := false }, [(LogLevel.Warning, dlaManagedMsg)]) ∧
    Device.init [PyVal.str "gpu:2"] {} =
      Except.ok ({ device_type := some DeviceType.GPU, gpu_id := 2, dla_core := -1,
                   allow_gpu_fallback := false }, []) :=
  ⟨rfl, rfl⟩

/-- C5: constructing with the `dla_core` keyword and no `gpu_id` keyword
defaults the primary gpu id to 0 and emits the defaulting signal; with an
explicit `gpu_id` keyword, that id is kept and no signal is emitted. -/
theorem device_dla_core_gpu_id_defaulting (dc g : Int) :
    Device.init [] { dla_core := some dc } =
      Except.ok ({ device_type := some DeviceType.DLA, gpu_id := 0, dla_core := dc,
                   allow_gpu_fallback := false }, [(LogLevel.Warning, dlaManagedMsg)]) ∧
    Device.init [] { gpu_id := some g, dla_core := some dc } =
      Except.ok ({ device_type := some DeviceType.DLA, gpu_id := g, dla_core := dc,
                   allow_gpu_fallback := false }, []) :=
  ⟨rfl, rfl⟩

/-- C8: device resolution is deterministic — two constructions from the
same positional and keyword arguments yield devices with identical
`device_type`, `gpu_id`, `dla_core` and `allow_gpu_fallback` fields. -/
theorem device_init_deterministic (args : List PyVal) (k : DeviceKwargs)
    (r1 r2 : Device × List LogEntry)
    (h1 : Device.init args k = Except.ok r1) (h2 : Device.init args k = Except.ok r2) :
    r1.1.device_type = r2.1.device_type ∧ r1.1.gpu_id = r2.1.gpu_id ∧
      r1.1.dla_core = r2.1.dla_core ∧
      r1.1.allow_gpu_fallback = r2.1.allow_gpu_fallback := by
  have h := h1.symm.trans h2
  injection h with h
  subst h
  exact ⟨rfl, rfl, rfl, rfl⟩

/-- C8 (witness): determinism applied to the construction from the
positional string "gpu:2". -/
theorem device_init_deterministic_witness :
    Device.init [PyVal.str "gpu:2"] {} =
      Except.ok ({ device_type := some DeviceType.GPU, gpu_id := 2, dla_core := -1,
                   allow_gpu_fallback := false }, []) ∧
    (({ device_type := some DeviceType.GPU, gpu_id := 2, dla_core := -1,
        allow_gpu_fallback := false } : Device).device_type =
      ({ device_type := some DeviceType.GPU, gpu_id := 2, dla_core := -1,
         allow_gpu_fallback := false } : Device).device_type ∧
     ({ device_type := some DeviceType.GPU, gpu_id := 2, dla_core := -1,
        allow_gpu_fallback := false } : Device).gpu_id =
      ({ device_type := some DeviceType.GPU, gpu_id := 2, dla_core := -1,
         allow_gpu_fallback := false } : Device).gpu_id ∧
     ({ device_type := some DeviceType.GPU, gpu_id := 2, dla_core := -1,
        allow_gpu_fallback := false } : Device).dla_core =
      ({ device_type := some DeviceType.GPU, gpu_id := 2, dla_core := -1,
         allow_gpu_fallback := false } : Device).dla_core ∧
     ({ device_type := some DeviceType.GPU, gpu_id := 2, dla_core := -1,
        allow_gpu_fallback := false } : Device).allow_gpu_fallback =
      ({ device_type := some DeviceType.GPU, gpu_id := 2, dla_core := -1,
         allow_gpu_fallback := false } : Device).allow_gpu_fallback) :=
  ⟨rfl, device_init_deterministic [PyVal.str "gpu:2"] {} _ _ rfl rfl⟩

theorem resolvedPrecision_eq (a : CompileArgs) :
    resolvedPrecision a =
      match resolve_precision a.enabled_precisions with
      | .ok p => some p.1
      | .error _ => none := by
  unfold resolvedPrecision compile
  cases resolve_precision a.enabled_precisions <;> rfl

theorem precisionInfoSignal_eq (a : CompileArgs) :
    precisionInfoSignal a =
      match resolve_precision a.enabled_precisions with
      | .ok p => some p.2
      | .error _ => none := by
  unfold precisionInfoSignal compile
  cases resolve_precision a.enabled_precisions <;> rfl

/-- C1: precision resolution in `compile` follows the documented order —
half-width float wins, else full-width float, else an empty set falls
back to the documented default with the informational signal, else the
call raises. -/
theorem compile_precision_resolution_order (a : CompileArgs) :
    ((Dtype.torch_float16 ∈ a.enabled_precisions ∨ Dtype.trt_half ∈ a.enabled_precisions) →
       resolvedPrecision a = some Dtype.torch_float16) ∧
    (Dtype.torch_float16 ∉ a.enabled_precisions → Dtype.trt_half ∉ a.enabled_precisions →
     (Dtype.torch_float32 ∈ a.enabled_precisions ∨ Dtype.trt_float ∈ a.enabled_precisions) →
       resolvedPrecision a = some Dtype.torch_float32) ∧
    (a.enabled_precisions = [] →
       resolvedPrecision a = some PRECISION ∧ precisionInfoSignal a = some true) ∧
    (a.enabled_precisions ≠ [] →
     Dtype.torch_float16 ∉ a.enabled_precisions → Dtype.trt_half ∉ a.enabled_precisions →
     Dtype.torch_float32 ∉ a.enabled_precisions → Dtype.trt_float ∉ a.enabled_precisions →
       compile a = Except.error "Precision not supported in the Dynamo Path") := by
  refine ⟨fun h => ?_, fun h1 h2 h => ?_, fun he => ?_, fun hne h1 h2 h3 h4 => ?_⟩
  · rw [resolvedPrecision_eq]
    unfold resolve_precision
    rw [if_pos h]
  · rw [resolvedPrecision_eq]
    unfold resolve_precision
    rw [if_neg (not_or.mpr ⟨h1, h2⟩), if_pos h]
  · constructor
    · rw [resolvedPrecision_eq]
      unfold resolve_precision
      rw [he]
      rfl
    · rw [precisionInfoSignal_eq]
      unfold resolve_precision
      rw [he]
      rfl
  · unfold compile resolve_precision
    rw [if_neg (not_or.mpr ⟨h1, h2⟩), if_neg (not_or.mpr ⟨h3, h4⟩), if_neg hne]

/-- C1 (witness): resolution evaluated on the set containing exactly the
half-width float type. -/
theorem compile_precision_resolution_order_witness :
    (Dtype.torch_float16 ∈ cfgHalf.enabled_precisions ∨
      Dtype.trt_half ∈ cfgHalf.enabled_precisions) ∧
    resolvedPrecision cfgHalf = some Dtype.torch_float16 :=
  ⟨Or.inl (by decide),
   (compile_precision_resolution_order cfgHalf).1 (Or.inl (by decide))⟩

/-- C9: a non-sequence `inputs` value is wrapped into the singleton list,
so `compile` behaves identically on a single input value and on the
one-element list containing it. -/
theorem compile_single_input_wrapped (g : List Verdict) (eps : List Dtype)
    (d : Bool) (w mbs : Nat) (x : Nat) :
    compile (CompileArgs.mk g (PyInput.single x) eps d w mbs) =
      compile (CompileArgs.mk g (PyInput.seq [x]) eps d w mbs) := rfl

theorem mem_iff_of_toFinset_eq {l1 l2 : List Dtype}
    (h : l1.toFinset = l2.toFinset) (d : Dtype) : d ∈ l1 ↔ d ∈ l2 := by
  rw [← List.mem_toFinset, h, List.mem_toFinset]

theorem resolve_precision_congr (l1 l2 : List Dtype) (h : l1.toFinset = l2.toFinset) :
    resolve_precision l1 = resolve_precision l2 := by
  have hm := mem_iff_of_toFinset_eq h
  have he : (l1 = []) ↔ (l2 = []) := by
    rw [← List.toFinset_eq_empty_iff, ← List.toFinset_eq_empty_iff, h]
  unfold resolve_precision
  by_cases h1 : Dtype.torch_float16 ∈ l1 ∨ Dtype.trt_half ∈ l1
  · have h2 : Dtype.torch_float16 ∈ l2 ∨ Dtype.trt_half ∈ l2 := by
      rcases h1 with h1 | h1
      · exact Or.inl ((hm _).mp h1)
      · exact Or.inr ((hm _).mp h1)
    rw [if_pos h1, if_pos h2]
  · have h2 : ¬(Dtype.torch_float16 ∈ l2 ∨ Dtype.trt_half ∈ l2) := by
      intro hc
      apply h1
      rcases hc with hc | hc
      · exact Or.inl ((hm _).mpr hc)
      · exact Or.inr ((hm _).mpr hc)
    rw [if_neg h1, if_neg h2]
    by_cases h3 : Dtype.torch_float32 ∈ l1 ∨ Dtype.trt_float ∈ l1
    · have h4 : Dtype.torch_float32 ∈ l2 ∨ Dtype.trt_float ∈ l2 := by
        rcases h3 with h3 | h3
        · exact Or.inl ((hm _).mp h3)
        · exact Or.inr ((hm _).mp h3)
      rw [if_pos h3, if_pos h4]
    · have h4 : ¬(Dtype.torch_float32 ∈ l2 ∨ Dtype.trt_float ∈ l2) := by
        intro hc
        apply h3
        rcases hc with hc | hc
        · exact Or.inl ((hm _).mpr hc)
        · exact Or.inr ((hm _).mpr hc)
      rw [if_neg h3, if_neg h4]
      by_cases h5 : l1 = []
      · rw [if_pos h5, if_pos (he.mp h5)]
      · rw [if_neg h5, if_neg (fun hc => h5 (he.mpr hc))]

/-- C10: the precision resolved by `compile` and the informational signal
depend only on the element set of `enabled_precisions`: two argument
lists with equal element sets (regardless of order or duplication)
resolve identically. -/
theorem compile_precision_set_invariant (a b : CompileArgs)
    (h : a.enabled_precisions.toFinset = b.enabled_precisions.toFinset) :
    resolvedPrecision a = resolvedPrecision b ∧
      precisionInfoSignal a = precisionInfoSignal b := by
  have hr := resolve_precision_congr _ _ h
  constructor
  · rw [resolvedPrecision_eq, resolvedPrecision_eq, hr]
  · rw [precisionInfoSignal_eq, precisionInfoSignal_eq, hr]

/-- C10 (witness): two precision lists with the same element set, in
different order and multiplicity and with different graphs, resolve
identically. -/
theorem compile_precision_set_invariant_witness :
    cfgSetA.enabled_precisions.toFinset = cfgSetB.enabled_precisions.toFinset ∧
    (resolvedPrecision cfgSetA = resolvedPrecision cfgSetB ∧
      precisionInfoSignal cfgSetA = precisionInfoSignal cfgSetB) :=
  ⟨by decide, compile_precision_set_invariant cfgSetA cfgSetB (by decide)⟩

/-- C6: a non-empty enabled-precision set containing neither a half-width
nor a full-width float type makes `compile` raise, producing no compiled
result and performing no subgraph conversion. -/
theorem compile_unsupported_precision_aborts (a : CompileArgs)
    (h0 : a.enabled_precisions ≠ [])
    (h1 : Dtype.torch_float16 ∉ a.enabled_precisions)
    (h2 : Dtype.trt_half ∉ a.enabled_precisions)
    (h3 : Dtype.torch_float32 ∉ a.enabled_precisions)
    (h4 : Dtype.trt_float ∉ a.enabled_precisions) :
    compile a = Except.error "Precision not supported in the Dynamo Path" ∧
      compile_convert_calls a = [] := by
  have hres : resolve_precision a.enabled_precisions =
      Except.error "Precision not supported in the Dynamo Path" := by
    unfold resolve_precision
    rw [if_neg (not_or.mpr ⟨h1, h2⟩), if_neg (not_or.mpr ⟨h3, h4⟩), if_neg h0]
  constructor
  · unfold compile
    rw [hres]
  · unfold compile_convert_calls
    rw [hres]

/-- C6 (witness): `compile` on the precision set containing only int8. -/
theorem compile_unsupported_precision_aborts_witness :
    (cfgInt8.enabled_precisions ≠ [] ∧
     Dtype.torch_float16 ∉ cfgInt8.enabled_precisions ∧
     Dtype.trt_half ∉ cfgInt8.enabled_precisions ∧
     Dtype.torch_float32 ∉ cfgInt8.enabled_precisions ∧
     Dtype.trt_float ∉ cfgInt8.enabled_precisions) ∧
    (compile cfgInt8 = Except.error "Precision not supported in the Dynamo Path" ∧
      compile_convert_calls cfgInt8 = []) :=
  ⟨⟨by decide, by decide, by decide, by decide, by decide⟩,
   compile_unsupported_precision_aborts cfgInt8 (by decide) (by decide) (by decide)
     (by decide) (by decide)⟩

/-- C2: evaluation at the failing input — `compile` with
`min_block_size = 2` on a graph with a single supported node still
returns a split whose only partition has size 1 and is routed to the
accelerator, because `lower_model_using_trt_splitter` hardcodes the
splitter's minimum accelerated-module size to 1 and never consults the
`min_block_size` argument it stores in the settings. -/
theorem compile_min_block_size_not_applied :
    compile cfgSmallBlock =
      Except.ok (CompiledResult.mk (CompilationSettings.mk Dtype.torch_float32 false 0 2)
        false (PyInput.seq []) [PartitionSeg.mk 1 true]) ∧
    1 < cfgSmallBlock.min_block_size :=
  ⟨rfl, by decide⟩

theorem assocLookup_eq_none_of_not_mem (n : String) (l : List (String × List Nat))
    (h : n ∉ l.map Prod.fst) : assocLookup n l = none := by
  induction l with
  | nil => rfl
  | cons p ps ih =>
    simp only [List.map_cons, List.mem_cons, not_or] at h
    unfold assocLookup
    rw [if_neg h.1]
    exact ih h.2

theorem compile_graph_fold (pfx : String) (l : List (String × List Nat)) :
    ∀ (f : String → Option FxModule) (cs : List String),
      (l.map Prod.fst).Nodup →
      (∀ p ∈ l, (f p.1).isSome) →
      l.foldlM (_compile_graph_step pfx) (f, cs) =
        Except.ok (spliceExpect pfx l f,
          cs ++ (l.map Prod.fst).filter (fun n => !(strStartsWith n pfx))) := by
  induction l with
  | nil =>
    intro f cs _ _
    have hf : spliceExpect pfx [] f = f := funext fun n => rfl
    rw [hf]
    simp only [List.map_nil, List.filter_nil, List.append_nil]
    rfl
  | cons p ps ih =>
    intro f cs hnd hsome
    obtain ⟨name, ins⟩ := p
    have hnd2 : (ps.map Prod.fst).Nodup := by
      simp only [List.map_cons, List.nodup_cons] at hnd
      exact hnd.2
    have hnin : name ∉ ps.map Prod.fst := by
      simp only [List.map_cons, List.nodup_cons] at hnd
      exact hnd.1
    obtain ⟨m, hm⟩ := Option.isSome_iff_exists.mp (hsome (name, ins) (by simp))
    rw [List.foldlM_cons]
    cases hsw : strStartsWith name pfx with
    | true =>
      have hstep : _compile_graph_step pfx (f, cs) (name, ins) = Except.ok (f, cs) := by
        simp [_compile_graph_step, hm, hsw]
      rw [hstep]
      have hbind : ((Except.ok (f, cs) : Except String _) >>=
          fun b => ps.foldlM (_compile_graph_step pfx) b) =
          ps.foldlM (_compile_graph_step pfx) (f, cs) := rfl
      rw [hbind, ih f cs hnd2 (fun q hq => hsome q (List.mem_cons_of_mem _ hq))]
      have e1 : spliceExpect pfx ps f = spliceExpect pfx ((name, ins) :: ps) f := by
        funext n
        unfold spliceExpect
        by_cases hn : n = name
        · subst hn
          rw [assocLookup_eq_none_of_not_mem n ps hnin]
          simp [assocLookup, hsw]
        · simp [assocLookup, hn]
      have e2 : (ps.map Prod.fst).filter (fun n => !(strStartsWith n pfx)) =
          (((name, ins) :: ps).map Prod.fst).filter (fun n => !(strStartsWith n pfx)) := by
        simp [List.filter_cons, hsw]
      rw [e1, e2]
    | false =>
      have hstep : _compile_graph_step pfx (f, cs) (name, ins) =
          Except.ok (setModuleAttr f name (convert_module m ins name), cs ++ [name]) := by
        simp [_compile_graph_step, hm, hsw]
      rw [hstep]
      have hbind : ((Except.ok (setModuleAttr f name (convert_module m ins name),
          cs ++ [name]) : Except String _) >>=
          fun b => ps.foldlM (_compile_graph_step pfx) b) =
          ps.foldlM (_compile_graph_step pfx)
            (setModuleAttr f name (convert_module m ins name), cs ++ [name]) := rfl
      rw [hbind]
      have hsome1 : ∀ q ∈ ps, ((setModuleAttr f name (convert_module m ins name)) q.1).isSome := by
        intro q hq
        unfold setModuleAttr
        by_cases hqn : q.1 = name
        · rw [if_pos hqn]
          rfl
        · rw [if_neg hqn]
          exact hsome q (List.mem_cons_of_mem _ hq)
      rw [ih (setModuleAttr f name (convert_module m ins name)) (cs ++ [name]) hnd2 hsome1]
      have e1 : spliceExpect pfx ps (setModuleAttr f name (convert_module m ins name)) =
          spliceExpect pfx ((name, ins) :: ps) f := by
        funext n
        unfold spliceExpect
        by_cases hn : n = name
        · subst hn
          rw [assocLookup_eq_none_of_not_mem n ps hnin]
          simp [assocLookup, setModuleAttr, hsw, hm]
        · cases hlk : assocLookup n ps with
          | none => simp [assocLookup, setModuleAttr, hn, hlk]
          | some ins2 => simp [assocLookup, setModuleAttr, hn, hlk]
      have e2 : (cs ++ [name]) ++ (ps.map Prod.fst).filter (fun n => !(strStartsWith n pfx)) =
          cs ++ (((name, ins) :: ps).map Prod.fst).filter (fun n => !(strStartsWith n pfx)) := by
        simp [List.filter_cons, hsw]
      rw [e1, e2]

/-- C7: when the input dict's keys are unique and every listed submodule
exists on the split module, the conversion loop of `_compile_graph`
succeeds; every listed submodule whose name lacks the non-accelerated
prefix is replaced by its compiled unit, every other submodule keeps its
value, and `convert_module` is invoked exactly on the eligible names. -/
theorem compile_graph_splices_exactly_eligible (sr : SplitResult)
    (h1 : (sr.submodule_inputs.map Prod.fst).Nodup)
    (h2 : ∀ p ∈ sr.submodule_inputs, (sr.split_module p.1).isSome) :
    spliceSucceeded sr = true ∧
    (∀ n ins, assocLookup n sr.submodule_inputs = some ins →
      splicedModules sr n =
        (if strStartsWith n sr.non_acc_submodule_pfx then sr.split_module n
         else (sr.split_module n).map (fun m => convert_module m ins n))) ∧
    (∀ n, assocLookup n sr.submodule_inputs = none →
      splicedModules sr n = sr.split_module n) ∧
    spliceConvertCalls sr =
      (sr.submodule_inputs.map Prod.fst).filter
        (fun n => !(strStartsWith n sr.non_acc_submodule_pfx)) := by
  have key := compile_graph_fold sr.non_acc_submodule_pfx sr.submodule_inputs
    sr.split_module [] h1 h2
  refine ⟨?_, ?_, ?_, ?_⟩
  · unfold spliceSucceeded _compile_graph_run
    rw [key]
  · intro n ins hlk
    unfold splicedModules _compile_graph_run
    rw [key]
    show spliceExpect sr.non_acc_submodule_pfx sr.submodule_inputs sr.split_module n = _
    unfold spliceExpect
    rw [hlk]
  · intro n hlk
    unfold splicedModules _compile_graph_run
    rw [key]
    show spliceExpect sr.non_acc_submodule_pfx sr.submodule_inputs sr.split_module n = _
    unfold spliceExpect
    rw [hlk]
  · unfold spliceConvertCalls _compile_graph_run
    rw [key]
    show [] ++ _ = _
    rw [List.nil_append]

/-- C7 (witness): the splice on a split result with one accelerator
submodule and one fallback submodule converts exactly the accelerator
one. -/
theorem compile_graph_splices_exactly_eligible_witness :
    (srEx.submodule_inputs.map Prod.fst).Nodup ∧
    (∀ p ∈ srEx.submodule_inputs, (srEx.split_module p.1).isSome) ∧
    spliceConvertCalls srEx = ["_run_on_acc_0"] := by
  refine ⟨by decide, by decide, ?_⟩
  have h := (compile_graph_splices_exactly_eligible srEx (by decide) (by decide)).2.2.2
  rw [h]
  rfl
